import Mathlib

/-!
Verification development for the Shodan C2 intelligence feed collector
(scripts/fetch_c2_feed.py).

The script is shallowly embedded here:

* Python/JSON values are modelled by the inductive type JsonVal (numbers are
  modelled as integers, which covers every numeric field the script touches:
  ports, AS numbers and counters).
* Python dictionary access d.get(k) / d.get(k, default) is modelled by pyGet
  and pyGetD; calling .get on a non-dictionary value raises AttributeError in
  Python, which is modelled by Except.error.
* The external Shodan client is modelled by the ShodanApi structure: each
  search either returns a list of raw match records or raises an APIError
  (Except.error).  An APIError raised in the middle of a cursor iteration
  leaves the matches already appended in place and moves on to the next
  query, which is observationally the same as a shorter successful stream,
  so a cursor response is modelled as either an error before any match or a
  full list of matches.
* File contents are modelled at the value level, except for the state file
  where the raw text and the JSON parse step (json.load) are modelled
  explicitly by json_loads.
-/

/-- JSON-like values as produced by json.load and by the Shodan client.
Numbers are modelled as integers. -/
inductive JsonVal where
  | null : JsonVal
  | bool : Bool → JsonVal
  | num : Int → JsonVal
  | str : String → JsonVal
  | arr : List JsonVal → JsonVal
  | obj : List (String × JsonVal) → JsonVal

/-- Lookup of a key in the field list of a JSON object (first occurrence). -/
def lookupJson : List (String × JsonVal) → String → Option JsonVal
  | [], _ => none
  | (k2, v) :: rest, k => if k2 = k then some v else lookupJson rest k

/-- Python d.get(key) on an object held in field list fs: the stored value, or
None (null) when the key is missing. -/
def get0 (fs : List (String × JsonVal)) (k : String) : JsonVal :=
  (lookupJson fs k).getD .null

/-- Python d.get(key, default) on an object held in field list fs. -/
def dget (fs : List (String × JsonVal)) (k : String) (d : JsonVal) : JsonVal :=
  (lookupJson fs k).getD d

/-- Python v.get(key): succeeds only when v is a dictionary, otherwise the
attribute access raises (modelled by Except.error). -/
def pyGet (v : JsonVal) (k : String) : Except Unit JsonVal :=
  match v with
  | .obj fs => .ok (get0 fs k)
  | _ => .error ()

/-- Python v.get(key, default): succeeds only when v is a dictionary. -/
def pyGetD (v : JsonVal) (k : String) (d : JsonVal) : Except Unit JsonVal :=
  match v with
  | .obj fs => .ok (dget fs k d)
  | _ => .error ()

/-- Single quote character, used by the Python repr of strings. -/
def squote : String := String.mk [Char.ofNat 39]

mutual

/-- Python repr() of a JSON-like value (string escaping is not modelled; the
claims never evaluate it on strings needing escapes). -/
def pyRepr : JsonVal → String
  | .null => "None"
  | .bool true => "True"
  | .bool false => "False"
  | .num n => toString n
  | .str s => squote ++ s ++ squote
  | .arr xs => "[" ++ pyReprItems xs ++ "]"
  | .obj fs => "\x7b" ++ pyReprFields fs ++ "\x7d"

/-- Comma-separated reprs of the items of a Python list. -/
def pyReprItems : List JsonVal → String
  | [] => ""
  | [x] => pyRepr x
  | x :: xs => pyRepr x ++ ", " ++ pyReprItems xs

/-- Comma-separated reprs of the fields of a Python dictionary. -/
def pyReprFields : List (String × JsonVal) → String
  | [] => ""
  | [(k, v)] => squote ++ k ++ squote ++ ": " ++ pyRepr v
  | (k, v) :: fs => squote ++ k ++ squote ++ ": " ++ pyRepr v ++ ", " ++ pyReprFields fs

end

/-- Python str() of a JSON-like value, as interpolated by an f-string:
strings are taken verbatim, None prints as None, numbers in decimal. -/
def pyStr : JsonVal → String
  | .null => "None"
  | .bool true => "True"
  | .bool false => "False"
  | .num n => toString n
  | .str s => s
  | .arr xs => "[" ++ pyReprItems xs ++ "]"
  | .obj fs => "\x7b" ++ pyReprFields fs ++ "\x7d"

/-- The indicator record built by parse_match.  Every field holds the JSON
value stored in the corresponding dictionary entry. -/
structure Indicator where
  ip : JsonVal
  port : JsonVal
  product : JsonVal
  tags : JsonVal
  org : JsonVal
  asn : JsonVal
  isp : JsonVal
  country : JsonVal
  city : JsonVal
  last_seen : JsonVal
  hostnames : JsonVal
  domains : JsonVal
  ssl_cn : JsonVal
  ssl_issuer : JsonVal
  ssl_fingerprint : JsonVal
  jarm : JsonVal
  http_title : JsonVal
  http_server : JsonVal
  os : JsonVal
  query_matched : JsonVal
  collected_at : JsonVal

/-- Computation of every field of parse_match except the collection
timestamp, which parse_match stamps onto the result.  Mirrors the dictionary
literal of parse_match: top-level accesses are m.get(key) on the match
dictionary; nested accesses go through .get(key, defaultdict) chains whose
intermediate values raise when they are not dictionaries. -/
def parse_fields (m : JsonVal) (query : String) : Except Unit Indicator :=
  match m with
  | .obj fs =>
    let loc := dget fs "location" (.obj [])
    let ssl := dget fs "ssl" (.obj [])
    let http := dget fs "http" (.obj [])
    do
      let country ← pyGet loc "country_code"
      let city ← pyGet loc "city"
      let cert ← pyGetD ssl "cert" (.obj [])
      let subject ← pyGetD cert "subject" (.obj [])
      let ssl_cn ← pyGet subject "CN"
      let issuer ← pyGetD cert "issuer" (.obj [])
      let ssl_issuer ← pyGet issuer "O"
      let fingerprint ← pyGetD cert "fingerprint" (.obj [])
      let ssl_fingerprint ← pyGet fingerprint "sha256"
      let jarm ← pyGet ssl "jarm"
      let http_title ← pyGet http "title"
      let http_server ← pyGet http "server"
      Except.ok
        { ip := get0 fs "ip_str"
          port := get0 fs "port"
          product := get0 fs "product"
          tags := dget fs "tags" (.arr [])
          org := get0 fs "org"
          asn := get0 fs "asn"
          isp := get0 fs "isp"
          country := country
          city := city
          last_seen := get0 fs "timestamp"
          hostnames := dget fs "hostnames" (.arr [])
          domains := dget fs "domains" (.arr [])
          ssl_cn := ssl_cn
          ssl_issuer := ssl_issuer
          ssl_fingerprint := ssl_fingerprint
          jarm := jarm
          http_title := http_title
          http_server := http_server
          os := get0 fs "os"
          query_matched := .str query
          collected_at := .null }
  | _ => .error ()

/-- Model of parse_match(match, query): normalizes one raw Shodan match into
an Indicator.  The argument now is the value of datetime.utcnow().isoformat()
followed by Z, stamped into collected_at. -/
def parse_match (m : JsonVal) (query : String) (now : String) : Except Unit Indicator :=
  (parse_fields m query).map (fun i => { i with collected_at := .str now })

/-- Identity key used by deduplicate and load_master_iocs: the f-string
ip:port. -/
def indicator_key (r : Indicator) : String :=
  pyStr r.ip ++ ":" ++ pyStr r.port

/-- Loop body of deduplicate: walk the new results, skipping any record whose
key is already in the seen set and inserting kept keys into it. -/
def dedup_go : List Indicator → Finset String → List Indicator
  | [], _ => []
  | r :: rs, seen =>
    if indicator_key r ∈ seen then dedup_go rs seen
    else r :: dedup_go rs (insert (indicator_key r) seen)

/-- Model of deduplicate(new_results, existing_keys): removes records whose
ip:port key is already known, first occurrence wins. -/
def deduplicate (new_results : List Indicator) (existing_keys : Finset String) : List Indicator :=
  dedup_go new_results existing_keys

/-- The fixed catalog of C2 fingerprint queries (C2_QUERIES). -/
def C2_QUERIES : List String :=
  [ "tag:c2"
  , "product:\"Cobalt Strike Beacon\""
  , "product:\"Cobalt Strike\""
  , "product:\"Metasploit\""
  , "product:\"Covenant\""
  , "product:\"Sliver\""
  , "product:\"Mythic\""
  , "product:\"Brute Ratel\""
  , "product:\"Havoc\""
  , "product:\"PoshC2\""
  , "product:\"Merlin\""
  , "product:\"Deimos\""
  , "http.html_hash:-1957161625" ]

/-- External Shodan client.  search_cursor yields the full match stream for
a query or raises an APIError; search performs one request with a result
limit.  Both failures are modelled by Except.error. -/
structure ShodanApi where
  search_cursor : String → Except Unit (List JsonVal)
  search : String → Nat → Except Unit (List JsonVal)

/-- Query string actually sent: the catalog query, with the date filter
appended when an after date is given (f-string query after:date). -/
def full_query (query : String) : Option String → String
  | some d => query ++ " after:" ++ d
  | none => query

/-- Loop body of fetch_c2_data for one match list: parse every match in
order; a parse failure (AttributeError) is not an APIError and aborts. -/
def parse_matches (ms : List JsonVal) (query : String) (now : String) :
    Except Unit (List Indicator) :=
  match ms with
  | [] => .ok []
  | m :: rest => do
    let i ← parse_match m query now
    let tl ← parse_matches rest query now
    .ok (i :: tl)

/-- One iteration of the query loop of fetch_c2_data: build the full query,
then either page with search_cursor (appending at most 500 matches before
breaking) or issue one search with limit 200.  An APIError is caught and the
query is skipped (contributes no matches). -/
def run_query (api : ShodanApi) (after_date : Option String) (now : String)
    (query : String) : Except Unit (List Indicator) :=
  let fq := full_query query after_date
  match after_date with
  | none =>
    match api.search_cursor fq with
    | .error _ => .ok []
    | .ok stream => parse_matches (stream.take 500) query now
  | some _ =>
    match api.search fq 200 with
    | .error _ => .ok []
    | .ok ms => parse_matches ms query now

/-- Model of fetch_c2_data(after_date): run every catalog query in order and
accumulate the parsed results. -/
def fetch_c2_data (api : ShodanApi) (queries : List String)
    (after_date : Option String) (now : String) : Except Unit (List Indicator) :=
  match queries with
  | [] => .ok []
  | q :: qs => do
    let rs ← run_query api after_date now q
    let rest ← fetch_c2_data api qs after_date now
    .ok (rs ++ rest)

/-- The master document c2_master.json.  load_master_data supplies an
indicators-only document when the file is missing; last_updated and
total_count are written by main. -/
structure MasterDoc where
  indicators : List Indicator
  last_updated : Option String
  total_count : Option Nat

/-- Run state document state.json written by save_state. -/
structure RunState where
  last_run : String
  total_indicators_collected : Nat

/-- Per-run feed document written to c2_feed.json and to the archive. -/
structure FeedDoc where
  generated_at : String
  run_type : String
  new_indicators_count : Nat
  indicators : List Indicator

/-- Model of save_state(last_run, total_indicators): the state document
written to state.json. -/
def save_state (last_run : String) (total_indicators : Nat) : RunState :=
  { last_run := last_run, total_indicators_collected := total_indicators }

/-- Model of load_master_iocs(): the set of ip:port keys of the master file
indicators, empty when the file is missing. -/
def load_master_iocs (master_file : Option MasterDoc) : Finset String :=
  match master_file with
  | some data => (data.indicators.map indicator_key).toFinset
  | none => ∅

/-- Model of load_master_data(): the full master document, or an
empty-indicators document when the file is missing. -/
def load_master_data (master_file : Option MasterDoc) : MasterDoc :=
  match master_file with
  | some data => data
  | none => { indicators := [], last_updated := none, total_count := none }


/-- Model of datetime values as used by the script (naive UTC datetimes). -/
structure PyDateTime where
  year : Nat
  month : Nat
  day : Nat
  hour : Nat
  minute : Nat
  second : Nat
  microsecond : Nat

/-- Field ranges enforced by the datetime constructor (the day upper bound is
simplified to 31, ignoring month lengths, which only widens the domain). -/
def PyDateTime.valid (d : PyDateTime) : Bool :=
  1 ≤ d.year && d.year ≤ 9999 && 1 ≤ d.month && d.month ≤ 12 &&
  1 ≤ d.day && d.day ≤ 31 && d.hour ≤ 23 && d.minute ≤ 59 &&
  d.second ≤ 59 && d.microsecond ≤ 999999

/-- Decimal digit character. -/
def digitChar (n : Nat) : Char := Char.ofNat (48 + n)

/-- Two-digit zero-padded decimal rendering (printf %02d for values below
100). -/
def pad2 (n : Nat) : List Char := [digitChar (n / 10 % 10), digitChar (n % 10)]

/-- Four-digit zero-padded decimal rendering (printf %04d for values below
10000). -/
def pad4 (n : Nat) : List Char :=
  [digitChar (n / 1000 % 10), digitChar (n / 100 % 10),
   digitChar (n / 10 % 10), digitChar (n % 10)]

/-- Six-digit zero-padded decimal rendering (printf %06d for values below
1000000). -/
def pad6 (n : Nat) : List Char :=
  [digitChar (n / 100000 % 10), digitChar (n / 10000 % 10),
   digitChar (n / 1000 % 10), digitChar (n / 100 % 10),
   digitChar (n / 10 % 10), digitChar (n % 10)]

/-- Characters of the calendar-day part YYYY-MM-DD shared by isoformat and
strftime. -/
def dateChars (d : PyDateTime) : List Char :=
  pad4 d.year ++ '-' :: (pad2 d.month ++ '-' :: pad2 d.day)

/-- Fractional-second suffix of isoformat: empty when the microsecond field
is zero, otherwise a dot followed by six digits. -/
def fracChars (us : Nat) : List Char :=
  if us = 0 then [] else '.' :: pad6 us

/-- Characters of the time part HH:MM:SS[.ffffff] of isoformat. -/
def timeChars (d : PyDateTime) : List Char :=
  pad2 d.hour ++ ':' :: (pad2 d.minute ++ ':' :: (pad2 d.second ++ fracChars d.microsecond))

/-- Model of datetime.isoformat(). -/
def isoformat (d : PyDateTime) : String :=
  String.mk (dateChars d ++ 'T' :: timeChars d)

/-- Model of datetime.strftime with format %Y-%m-%d. -/
def strftime_Ymd (d : PyDateTime) : String :=
  String.mk (dateChars d)

/-- Numeric value of a digit character. -/
def digitVal (c : Char) : Nat := c.toNat - 48

/-- Parse exactly two decimal digits. -/
def parse2 : List Char → Option (Nat × List Char)
  | c1 :: c2 :: rest =>
    if c1.isDigit && c2.isDigit then some (digitVal c1 * 10 + digitVal c2, rest)
    else none
  | _ => none

/-- Parse exactly four decimal digits. -/
def parse4 (cs : List Char) : Option (Nat × List Char) := do
  let (a, r1) ← parse2 cs
  let (b, r2) ← parse2 r1
  some (a * 100 + b, r2)

/-- Parse exactly six decimal digits. -/
def parse6 (cs : List Char) : Option (Nat × List Char) := do
  let (a, r1) ← parse2 cs
  let (b, r2) ← parse2 r1
  let (c, r3) ← parse2 r2
  some (a * 10000 + b * 100 + c, r3)

/-- Consume one expected character. -/
def expectChar (c : Char) : List Char → Option (List Char)
  | c2 :: rest => if c2 = c then some rest else none
  | _ => none

/-- Model of datetime.fromisoformat on canonical isoformat output
YYYY-MM-DDTHH:MM:SS[.ffffff] (the only shape the script feeds it); any other
input is a parse failure (ValueError), modelled by none. -/
def fromisoformat (s : String) : Option PyDateTime := do
  let (y, r1) ← parse4 s.data
  let r2 ← expectChar '-' r1
  let (mo, r3) ← parse2 r2
  let r4 ← expectChar '-' r3
  let (dy, r5) ← parse2 r4
  let r6 ← expectChar 'T' r5
  let (h, r7) ← parse2 r6
  let r8 ← expectChar ':' r7
  let (mi, r9) ← parse2 r8
  let r10 ← expectChar ':' r9
  let (se, r11) ← parse2 r10
  let (us, r12) ←
    match r11 with
    | [] => some (0, ([] : List Char))
    | c :: rest =>
      if c = '.' then do
        let (u, rr) ← parse6 rest
        some (u, rr)
      else none
  let d : PyDateTime :=
    { year := y, month := mo, day := dy, hour := h, minute := mi,
      second := se, microsecond := us }
  if r12 = [] ∧ d.valid then some d else none

/-- Model of the Python expression s.replace applied with the single
character Z and the empty replacement: every occurrence of Z is removed. -/
def pyReplaceZ (s : String) : String :=
  String.mk (s.data.filter (fun c => c != 'Z'))

/-- Incremental-run boundary computation of main: parse the recorded
last_run timestamp (with the trailing Z stripped) and format it as
YYYY-MM-DD. -/
def incremental_after_date (last_run_value : String) : Option String :=
  (fromisoformat (pyReplaceZ last_run_value)).map strftime_Ymd

/-- Post-fetch part of main: deduplicate the fetched data against the master
keys, append the new indicators to the master document, and build the master
document, feed document and run state that are written out. -/
def run_pipeline (master_file : Option MasterDoc) (c2_data : List Indicator)
    (now : PyDateTime) (is_first_run : Bool) : MasterDoc × FeedDoc × RunState :=
  let existing_keys := load_master_iocs master_file
  let master_data := load_master_data master_file
  let new_indicators := deduplicate c2_data existing_keys
  let indicators2 := master_data.indicators ++ new_indicators
  let master2 : MasterDoc :=
    { indicators := indicators2
      last_updated := some (isoformat now ++ "Z")
      total_count := some indicators2.length }
  let feed : FeedDoc :=
    { generated_at := isoformat now ++ "Z"
      run_type := if is_first_run then "backfill" else "incremental"
      new_indicators_count := new_indicators.length
      indicators := new_indicators }
  (master2, feed, save_state (isoformat now ++ "Z") master2.indicators.length)

/-- Skip JSON whitespace. -/
def jskipWs : List Char → List Char
  | c :: cs =>
    if c = ' ' ∨ c = '\t' ∨ c = '\n' ∨ c = '\r' then jskipWs cs else c :: cs
  | [] => []

/-- Consume a run of decimal digits, accumulating their value. -/
def jtakeDigits : List Char → Nat → Nat × List Char
  | c :: cs, acc =>
    if c.isDigit then jtakeDigits cs (acc * 10 + (c.toNat - 48)) else (acc, c :: cs)
  | [], acc => (acc, [])

/-- Parse a nonempty run of decimal digits. -/
def jparseNat (cs : List Char) : Option (Nat × List Char) :=
  match cs with
  | c :: _ => if c.isDigit then some (jtakeDigits cs 0) else none
  | [] => none

/-- Parse the body of a JSON string literal after the opening quote, up to
and including the closing quote.  Unicode escapes are not modelled. -/
def jparseStringChars : List Char → Option (List Char × List Char)
  | [] => none
  | c :: cs =>
    if c = '"' then some ([], cs)
    else if c = '\\' then
      match cs with
      | e :: cs2 =>
        let ec :=
          if e = '"' then some '"'
          else if e = '\\' then some '\\'
          else if e = '/' then some '/'
          else if e = 'n' then some '\n'
          else if e = 't' then some '\t'
          else if e = 'r' then some '\r'
          else if e = 'b' then some (Char.ofNat 8)
          else if e = 'f' then some (Char.ofNat 12)
          else none
        match ec with
        | some ec2 => (jparseStringChars cs2).map (fun p => (ec2 :: p.1, p.2))
        | none => none
      | [] => none
    else (jparseStringChars cs).map (fun p => (c :: p.1, p.2))

mutual

/-- Fuel-indexed recursive-descent parser for a JSON value (integers only;
floats and unicode escapes are outside the model). -/
def jparseVal : Nat → List Char → Option (JsonVal × List Char)
  | 0, _ => none
  | fuel + 1, cs =>
    match jskipWs cs with
    | [] => none
    | c :: rest =>
      if c = '"' then (jparseStringChars rest).map (fun p => (.str (String.mk p.1), p.2))
      else if c = '-' then (jparseNat rest).map (fun p => (.num (-(p.1 : Int)), p.2))
      else if c.isDigit then (jparseNat (c :: rest)).map (fun p => (.num (p.1 : Int), p.2))
      else if c = 't' then
        match rest with
        | 'r' :: 'u' :: 'e' :: r => some (.bool true, r)
        | _ => none
      else if c = 'f' then
        match rest with
        | 'a' :: 'l' :: 's' :: 'e' :: r => some (.bool false, r)
        | _ => none
      else if c = 'n' then
        match rest with
        | 'u' :: 'l' :: 'l' :: r => some (.null, r)
        | _ => none
      else if c = '[' then
        match jskipWs rest with
        | ']' :: r => some (.arr [], r)
        | r2 => (jparseArrItems fuel r2).map (fun p => (.arr p.1, p.2))
      else if c = '\x7b' then
        match jskipWs rest with
        | '\x7d' :: r => some (.obj [], r)
        | r2 => (jparseObjFields fuel r2).map (fun p => (.obj p.1, p.2))
      else none

/-- Items of a JSON array after the opening bracket (nonempty case). -/
def jparseArrItems : Nat → List Char → Option (List JsonVal × List Char)
  | 0, _ => none
  | fuel + 1, cs => do
    let (v, r1) ← jparseVal fuel cs
    match jskipWs r1 with
    | ',' :: r2 => (jparseArrItems fuel r2).map (fun p => (v :: p.1, p.2))
    | ']' :: r2 => some ([v], r2)
    | _ => none

/-- Fields of a JSON object after the opening brace (nonempty case). -/
def jparseObjFields : Nat → List Char → Option (List (String × JsonVal) × List Char)
  | 0, _ => none
  | fuel + 1, cs =>
    match jskipWs cs with
    | '"' :: r1 => do
      let (k, r2) ← jparseStringChars r1
      match jskipWs r2 with
      | ':' :: r3 => do
        let (v, r4) ← jparseVal fuel r3
        match jskipWs r4 with
        | ',' :: r5 => (jparseObjFields fuel r5).map (fun p => ((String.mk k, v) :: p.1, p.2))
        | '\x7d' :: r5 => some ([(String.mk k, v)], r5)
        | _ => none
      | _ => none
    | _ => none

end

/-- Model of json.load / json.loads on the text of a file: parse one JSON
value and require only trailing whitespace after it; any failure raises
(Except.error). -/
def json_loads (s : String) : Except Unit JsonVal :=
  match jparseVal (s.data.length + 2) s.data with
  | some (v, rest) => if jskipWs rest = [] then .ok v else .error ()
  | none => .error ()

/-- Model of load_state(): when the state file exists its text is parsed
with json.load (which raises on malformed content); when it is missing the
function returns None. -/
def load_state (state_file : Option String) : Except Unit (Option JsonVal) :=
  match state_file with
  | some text => (json_loads text).map some
  | none => .ok none

/-- Modelled from the spec (section 4.6), for comparison with deduplicate:
keep exactly the inputs whose identity key is neither in the known set nor
equal to the key of an earlier element of the input, preserving order.  The
first argument accumulates the keys of all earlier elements. -/
def dedup_spec_go : List String → Finset String → List Indicator → List Indicator
  | _, _, [] => []
  | earlier, known, b :: bs =>
    if indicator_key b ∈ known ∨ indicator_key b ∈ earlier then
      dedup_spec_go (earlier ++ [indicator_key b]) known bs
    else
      b :: dedup_spec_go (earlier ++ [indicator_key b]) known bs

/-- Modelled from the spec (section 4.6): the order-preserving subsequence of
inputs whose identity key is neither in the known set nor equal to the key of
an earlier input element. -/
def dedup_spec (new_results : List Indicator) (existing_keys : Finset String) : List Indicator :=
  dedup_spec_go [] existing_keys new_results

/-- Whether a JSON value is a dictionary. -/
def isObjB : JsonVal → Bool
  | .obj _ => true
  | _ => false

/-- Whether the cert entry of the ssl dictionary (or its default) is a
dictionary whose subject, issuer and fingerprint entries are absent or
dictionaries. -/
def certOk : JsonVal → Bool
  | .obj cfs =>
    isObjB (dget cfs "subject" (.obj [])) &&
    isObjB (dget cfs "issuer" (.obj [])) &&
    isObjB (dget cfs "fingerprint" (.obj []))
  | _ => false

/-- Whether the ssl entry (or its default) is a dictionary with a
well-formed cert entry. -/
def sslOk : JsonVal → Bool
  | .obj sfs => certOk (dget sfs "cert" (.obj []))
  | _ => false

/-- Raw match records on which no .get chain of parse_match hits a
non-dictionary: the record itself is a dictionary and each of the nested
values location, http, ssl, ssl.cert and its subject, issuer and fingerprint
entries is absent or a dictionary.  Records missing any subset of fields
satisfy this. -/
def wf_match : JsonVal → Bool
  | .obj fs =>
    isObjB (dget fs "location" (.obj [])) &&
    isObjB (dget fs "http" (.obj [])) &&
    sslOk (dget fs "ssl" (.obj []))
  | _ => false

/-- Indicator value with every field null, used as the default of
parse_result. -/
def nullIndicator : Indicator :=
  { ip := .null, port := .null, product := .null, tags := .null, org := .null,
    asn := .null, isp := .null, country := .null, city := .null,
    last_seen := .null, hostnames := .null, domains := .null, ssl_cn := .null,
    ssl_issuer := .null, ssl_fingerprint := .null, jarm := .null,
    http_title := .null, http_server := .null, os := .null,
    query_matched := .null, collected_at := .null }

/-- The indicator produced by a successful parse_match (and nullIndicator
when the parse raises), giving hypothesis-free access to the result. -/
def parse_result (m : JsonVal) (query : String) (now : String) : Indicator :=
  (parse_match m query now).toOption.getD nullIndicator

/-- Concatenation of per-query result lists in catalog order. -/
def concat_lists : List (List Indicator) → List Indicator
  | [] => []
  | l :: ls => l ++ concat_lists ls

/-- Result list of a fetch step known not to raise (empty list otherwise),
used to state results compactly. -/
def exceptD (e : Except Unit (List Indicator)) : List Indicator :=
  e.toOption.getD []

/-- Total counterpart of pyGet for stating results: field of a dictionary
value, null otherwise. -/
def jget (v : JsonVal) (k : String) : JsonVal :=
  match v with
  | .obj fs => get0 fs k
  | _ => .null

/-- Total counterpart of pyGetD for stating results: field of a dictionary
value, the default otherwise. -/
def jgetD (v : JsonVal) (k : String) (d : JsonVal) : JsonVal :=
  match v with
  | .obj fs => dget fs k d
  | _ => d

/-- Indicator with the given address and port and every other field null. -/
def mkInd (ip port : JsonVal) : Indicator :=
  { nullIndicator with ip := ip, port := port }

/-- Fixed datetime used to instantiate witnesses. -/
def tNow : PyDateTime :=
  { year := 2026, month := 1, day := 2, hour := 3, minute := 4, second := 5,
    microsecond := 0 }

/-- Concrete master document with one indicator, for witnesses. -/
def c1A : MasterDoc :=
  { indicators := [mkInd (.str "1.2.3.4") (.num 443)]
    last_updated := none, total_count := none }

/-- Concrete fetched batch repeating a known endpoint and adding a new one. -/
def c1B : List Indicator :=
  [mkInd (.str "1.2.3.4") (.num 443), mkInd (.str "9.9.9.9") (.num 22)]

/-- Raw match returned by the second query of the failing-query scenario. -/
def c4_m2 : JsonVal := .obj [("ip_str", .str "5.6.7.8"), ("port", .num 8080)]

/-- Raw match returned by the third query of the failing-query scenario. -/
def c4_m3 : JsonVal := .obj [("ip_str", .str "9.9.9.9"), ("port", .num 22)]

/-- Client for the failing-query scenario: the first catalog query raises an
APIError, the other two succeed with one match each. -/
def c4_api : ShodanApi :=
  { search_cursor := fun _ => .error ()
    search := fun fq _ =>
      if fq = "q1 after:2026-01-01" then .error ()
      else if fq = "q2 after:2026-01-01" then .ok [c4_m2]
      else .ok [c4_m3] }

/-- Three-query catalog of the failing-query scenario. -/
def c4_queries : List String := ["q1", "q2", "q3"]

/-- Single raw match used by the cap witnesses. -/
def c5_ms : List JsonVal := [.obj [("ip_str", .str "1.2.3.4"), ("port", .num 443)]]

/-- Client returning one match on every request, for the cap witnesses. -/
def c5_api : ShodanApi :=
  { search_cursor := fun _ => .ok c5_ms, search := fun _ _ => .ok c5_ms }

/-- Parsed results of the bootstrap branch of the cap witness. -/
def c5_l1 : List Indicator := exceptD (run_query c5_api none "T0" "tag:c2")

/-- Parsed results of the incremental branch of the cap witness. -/
def c5_l2 : List Indicator := exceptD (run_query c5_api (some "2026-01-01") "T0" "tag:c2")

/-- Client whose requests all raise, used to instantiate the boundary
witness. -/
def c7_api : ShodanApi :=
  { search_cursor := fun _ => .error (), search := fun _ _ => .error () }

/-- Well-formed state file text, for the load_state witness. -/
def c9_text : String :=
  "\x7b\"last_run\": \"2026-01-01T00:00:00Z\", \"total_indicators_collected\": 2\x7d"

/-- Parsed value of c9_text. -/
def c9_val : JsonVal :=
  .obj [("last_run", .str "2026-01-01T00:00:00Z"),
        ("total_indicators_collected", .num 2)]

/-- Raw match whose address itself contains a colon. -/
def c10_m1 : JsonVal := .obj [("ip_str", .str "a:1"), ("port", .num 2)]

/-- Raw match with a different address and port formatting to the same key. -/
def c10_m2 : JsonVal := .obj [("ip_str", .str "a"), ("port", .str "1:2")]

/-- Normalized form of c10_m1. -/
def c10_i1 : Indicator := parse_result c10_m1 "tag:c2" "T0"

/-- Normalized form of c10_m2. -/
def c10_i2 : Indicator := parse_result c10_m2 "tag:c2" "T0"

/-- C2 list used in the idempotence witness. -/
def c6_raw : List JsonVal := [.obj [("ip_str", .str "1.2.3.4"), ("port", .num 443)]]

/-- First-pass normalization of c6_raw. -/
def c6_L1 : List Indicator := exceptD (parse_matches c6_raw "tag:c2" "T1")

/-- Second-pass normalization of c6_raw at a later collection time. -/
def c6_L2 : List Indicator := exceptD (parse_matches c6_raw "tag:c2" "T2")

theorem ebind_ok {α β : Type} (a : α) (f : α → Except Unit β) :
    (Except.ok a >>= f) = f a := rfl

theorem ebind_err {α β : Type} (f : α → Except Unit β) :
    ((Except.error () : Except Unit α) >>= f) = .error () := rfl

theorem obind_some {α β : Type} (a : α) (f : α → Option β) :
    (some a >>= f) = f a := rfl

theorem obind_none {α β : Type} (f : α → Option β) :
    ((none : Option α) >>= f) = none := rfl

theorem dedup_go_keys (B : List Indicator) : ∀ seen : Finset String,
    ((dedup_go B seen).map indicator_key).toFinset =
      (B.map indicator_key).toFinset \ seen := by
  induction B with
  | nil => intro seen; simp [dedup_go]
  | cons r rs ih =>
    intro seen
    by_cases h : indicator_key r ∈ seen
    · rw [dedup_go, if_pos h, ih]
      ext x
      simp only [List.map_cons, List.toFinset_cons, Finset.mem_sdiff, Finset.mem_insert]
      constructor
      · rintro ⟨hx, hxs⟩
        exact ⟨Or.inr hx, hxs⟩
      · rintro ⟨hx | hx, hxs⟩
        · exact absurd (hx ▸ h) hxs
        · exact ⟨hx, hxs⟩
    · rw [dedup_go, if_neg h]
      simp only [List.map_cons, List.toFinset_cons]
      rw [ih]
      ext x
      simp only [Finset.mem_insert, Finset.mem_sdiff]
      constructor
      · rintro (rfl | ⟨hx, hxs⟩)
        · exact ⟨Or.inl rfl, h⟩
        · exact ⟨Or.inr hx, fun c => hxs (Or.inr c)⟩
      · rintro ⟨rfl | hx, hxs⟩
        · exact Or.inl rfl
        · by_cases hxk : x = indicator_key r
          · exact Or.inl hxk
          · exact Or.inr ⟨hx, by simp [Finset.mem_insert, hxk, hxs]⟩
  
theorem dedup_go_fresh (B : List Indicator) : ∀ seen : Finset String,
    ((dedup_go B seen).map indicator_key).Nodup ∧
      ∀ r ∈ dedup_go B seen, indicator_key r ∉ seen := by
  induction B with
  | nil => intro seen; simp [dedup_go]
  | cons r rs ih =>
    intro seen
    by_cases h : indicator_key r ∈ seen
    · rw [dedup_go, if_pos h]
      exact ih seen
    · rw [dedup_go, if_neg h]
      obtain ⟨ihn, ihf⟩ := ih (insert (indicator_key r) seen)
      refine ⟨?_, ?_⟩
      · simp only [List.map_cons, List.nodup_cons]
        refine ⟨?_, ihn⟩
        intro hmem
        rcases List.mem_map.mp hmem with ⟨r2, hr2, hk⟩
        exact ihf r2 hr2 (by rw [hk]; exact Finset.mem_insert_self _ _)
      · intro r2 hr2
        rcases List.mem_cons.mp hr2 with rfl | hr2
        · exact h
        · exact fun hs => ihf r2 hr2 (Finset.mem_insert_of_mem hs)

theorem dedup_go_nil (B : List Indicator) : ∀ seen : Finset String,
    (∀ r ∈ B, indicator_key r ∈ seen) → dedup_go B seen = [] := by
  induction B with
  | nil => intro seen _; rfl
  | cons r rs ih =>
    intro seen h
    rw [dedup_go, if_pos (h r (List.mem_cons_self _ _))]
    exact ih seen (fun r2 hr2 => h r2 (List.mem_cons_of_mem _ hr2))

theorem load_master_iocs_eq (master_file : Option MasterDoc) :
    load_master_iocs master_file =
      ((load_master_data master_file).indicators.map indicator_key).toFinset := by
  cases master_file <;> simp [load_master_iocs, load_master_data]

theorem run_pipeline_indicators (master_file : Option MasterDoc)
    (B : List Indicator) (now : PyDateTime) (fr : Bool) :
    (run_pipeline master_file B now fr).1.indicators =
      (load_master_data master_file).indicators ++
        deduplicate B (load_master_iocs master_file) := rfl

/-- C1: after one successful run on a master whose indicator keys are free of
duplicates, the master key set is the union of the old key set and the keys
of the fetched batch, and the master still has no duplicate keys. -/
theorem run_pipeline_key_union (master_file : Option MasterDoc) (B : List Indicator)
    (now : PyDateTime) (fr : Bool)
    (hA : ((load_master_data master_file).indicators.map indicator_key).Nodup) :
    (((run_pipeline master_file B now fr).1.indicators.map indicator_key).toFinset =
        ((load_master_data master_file).indicators.map indicator_key).toFinset ∪
          (B.map indicator_key).toFinset) ∧
      ((run_pipeline master_file B now fr).1.indicators.map indicator_key).Nodup := by
  have hK := load_master_iocs_eq master_file
  constructor
  · rw [run_pipeline_indicators, List.map_append, List.toFinset_append,
      deduplicate, dedup_go_keys, hK, Finset.union_sdiff_self_eq_union]
  · rw [run_pipeline_indicators, List.map_append]
    refine List.nodup_append.mpr ⟨hA, (dedup_go_fresh B _).1, ?_⟩
    intro a ha hb
    rcases List.mem_map.mp hb with ⟨r, hr, rfl⟩
    exact (dedup_go_fresh B _).2 r hr (by rw [hK]; exact List.mem_toFinset.mpr ha)

/-- C1 witness: a concrete master with one endpoint and a batch repeating it
plus one new endpoint. -/
theorem run_pipeline_key_union_witness :
    (((run_pipeline (some c1A) c1B tNow false).1.indicators.map indicator_key).toFinset =
        ((load_master_data (some c1A)).indicators.map indicator_key).toFinset ∪
          (c1B.map indicator_key).toFinset) ∧
      ((run_pipeline (some c1A) c1B tNow false).1.indicators.map indicator_key).Nodup :=
  run_pipeline_key_union (some c1A) c1B tNow false (by decide)

theorem dedup_go_eq_spec_go (B : List Indicator) :
    ∀ (seen known : Finset String) (earlier : List String),
      (∀ k, k ∈ seen ↔ k ∈ known ∨ k ∈ earlier) →
        dedup_go B seen = dedup_spec_go earlier known B := by
  induction B with
  | nil => intro seen known earlier _; rfl
  | cons b bs ih =>
    intro seen known earlier hinv
    by_cases h : indicator_key b ∈ seen
    · rw [dedup_go, if_pos h, dedup_spec_go, if_pos ((hinv _).mp h)]
      apply ih
      intro k
      rw [hinv k, List.mem_append, List.mem_singleton]
      constructor
      · rintro (hk | hk)
        · exact Or.inl hk
        · exact Or.inr (Or.inl hk)
      · rintro (hk | hk | rfl)
        · exact Or.inl hk
        · exact Or.inr hk
        · exact (hinv _).mp h
    · have hspec : ¬ (indicator_key b ∈ known ∨ indicator_key b ∈ earlier) :=
        fun c => h ((hinv _).mpr c)
      rw [dedup_go, if_neg h, dedup_spec_go, if_neg hspec]
      congr 1
      apply ih
      intro k
      rw [Finset.mem_insert, hinv k, List.mem_append, List.mem_singleton]
      constructor
      · rintro (rfl | hk | hk)
        · exact Or.inr (Or.inr rfl)
        · exact Or.inl hk
        · exact Or.inr (Or.inl hk)
      · rintro (hk | hk | rfl)
        · exact Or.inr (Or.inl hk)
        · exact Or.inr (Or.inr hk)
        · exact Or.inl rfl

/-- C2: the deduplicator returns exactly the order-preserving subsequence of
its input whose identity key is neither among the already-known keys nor the
key of an earlier input element, so of two records sharing a key only the
first survives. -/
theorem deduplicate_eq_spec (new_results : List Indicator) (existing_keys : Finset String) :
    deduplicate new_results existing_keys = dedup_spec new_results existing_keys :=
  dedup_go_eq_spec_go new_results existing_keys existing_keys []
    (fun k => by simp)

/-- C8: after a run, the master document total_count equals the length of its
indicator collection, and the persisted run state records that same value. -/
theorem total_count_matches (master_file : Option MasterDoc) (B : List Indicator)
    (now : PyDateTime) (fr : Bool) :
    (run_pipeline master_file B now fr).1.total_count =
        some ((run_pipeline master_file B now fr).1.indicators.length) ∧
      (run_pipeline master_file B now fr).2.2.total_indicators_collected =
        (run_pipeline master_file B now fr).1.indicators.length :=
  ⟨rfl, rfl⟩

theorem parse_match_key_time_inv (m : JsonVal) (q t1 t2 : String) (i1 i2 : Indicator)
    (h1 : parse_match m q t1 = .ok i1) (h2 : parse_match m q t2 = .ok i2) :
    indicator_key i1 = indicator_key i2 := by
  unfold parse_match at h1 h2
  cases hpf : parse_fields m q with
  | error e => rw [hpf] at h1; cases h1
  | ok c =>
    rw [hpf] at h1 h2
    simp only [Except.map] at h1 h2
    cases h1
    cases h2
    rfl

theorem parse_matches_keys_time_inv (raw : List JsonVal) (q t1 t2 : String) :
    ∀ L1 L2, parse_matches raw q t1 = .ok L1 → parse_matches raw q t2 = .ok L2 →
      L1.map indicator_key = L2.map indicator_key := by
  induction raw with
  | nil =>
    intro L1 L2 h1 h2
    simp only [parse_matches] at h1 h2
    cases h1
    cases h2
    rfl
  | cons m rest ih =>
    intro L1 L2 h1 h2
    simp only [parse_matches] at h1 h2
    cases hm1 : parse_match m q t1 with
    | error e => rw [hm1, ebind_err] at h1; cases h1
    | ok i1 =>
      cases hm2 : parse_match m q t2 with
      | error e => rw [hm2, ebind_err] at h2; cases h2
      | ok i2 =>
        rw [hm1, ebind_ok] at h1
        rw [hm2, ebind_ok] at h2
        cases hr1 : parse_matches rest q t1 with
        | error e => rw [hr1, ebind_err] at h1; cases h1
        | ok tl1 =>
          cases hr2 : parse_matches rest q t2 with
          | error e => rw [hr2, ebind_err] at h2; cases h2
          | ok tl2 =>
            rw [hr1, ebind_ok] at h1
            rw [hr2, ebind_ok] at h2
            cases h1
            cases h2
            simp only [List.map_cons]
            rw [parse_match_key_time_inv m q t1 t2 i1 i2 hm1 hm2,
              ih tl1 tl2 hr1 hr2]

/-- C6: deduplication is idempotent across runs: normalizing the same raw
match list a second time (at a possibly different collection time) and
deduplicating it against the master produced by the run that absorbed the
first pass yields zero new indicators. -/
theorem dedup_idempotent_second_pass (raw : List JsonVal) (q t1 t2 : String)
    (master_file : Option MasterDoc) (now : PyDateTime) (fr : Bool)
    (L1 L2 : List Indicator)
    (h1 : parse_matches raw q t1 = .ok L1) (h2 : parse_matches raw q t2 = .ok L2) :
    deduplicate L2
      (((run_pipeline master_file L1 now fr).1.indicators.map indicator_key).toFinset) = [] := by
  have hkeys : L2.map indicator_key = L1.map indicator_key :=
    parse_matches_keys_time_inv raw q t2 t1 L2 L1 h2 h1
  rw [deduplicate]
  apply dedup_go_nil
  intro r hr
  rw [run_pipeline_indicators, List.map_append, List.toFinset_append,
    deduplicate, dedup_go_keys, load_master_iocs_eq, Finset.union_sdiff_self_eq_union]
  apply Finset.mem_union_right
  apply List.mem_toFinset.mpr
  rw [← hkeys]
  exact List.mem_map_of_mem indicator_key hr

/-- C6 witness: one raw match parsed at two collection times, deduplicated
against the master produced by a bootstrap run on an empty master. -/
theorem dedup_idempotent_second_pass_witness :
    deduplicate c6_L2
      (((run_pipeline none c6_L1 tNow true).1.indicators.map indicator_key).toFinset) = [] :=
  dedup_idempotent_second_pass c6_raw "tag:c2" "T1" "T2" none tNow true c6_L1 c6_L2 rfl rfl

theorem isObjB_obj {v : JsonVal} (h : isObjB v = true) : ∃ fs, v = .obj fs := by
  cases v with
  | obj fs => exact ⟨fs, rfl⟩
  | null => simp [isObjB] at h
  | bool b => simp [isObjB] at h
  | num n => simp [isObjB] at h
  | str s => simp [isObjB] at h
  | arr xs => simp [isObjB] at h

theorem parse_fields_ok_of_wf (fs : List (String × JsonVal)) (q : String)
    (hwf : wf_match (.obj fs) = true) :
    parse_fields (.obj fs) q = .ok
      { ip := get0 fs "ip_str", port := get0 fs "port", product := get0 fs "product",
        tags := dget fs "tags" (.arr []), org := get0 fs "org", asn := get0 fs "asn",
        isp := get0 fs "isp",
        country := jget (dget fs "location" (.obj [])) "country_code",
        city := jget (dget fs "location" (.obj [])) "city",
        last_seen := get0 fs "timestamp",
        hostnames := dget fs "hostnames" (.arr []),
        domains := dget fs "domains" (.arr []),
        ssl_cn := jget (jgetD (jgetD (dget fs "ssl" (.obj [])) "cert" (.obj []))
          "subject" (.obj [])) "CN",
        ssl_issuer := jget (jgetD (jgetD (dget fs "ssl" (.obj [])) "cert" (.obj []))
          "issuer" (.obj [])) "O",
        ssl_fingerprint := jget (jgetD (jgetD (dget fs "ssl" (.obj [])) "cert" (.obj []))
          "fingerprint" (.obj [])) "sha256",
        jarm := jget (dget fs "ssl" (.obj [])) "jarm",
        http_title := jget (dget fs "http" (.obj [])) "title",
        http_server := jget (dget fs "http" (.obj [])) "server",
        os := get0 fs "os", query_matched := .str q, collected_at := .null } := by
  simp only [wf_match] at hwf
  rw [Bool.and_eq_true, Bool.and_eq_true] at hwf
  obtain ⟨⟨hloc0, hhttp0⟩, hssl0⟩ := hwf
  cases hssl : dget fs "ssl" (.obj []) with
  | obj sfs =>
    rw [hssl] at hssl0
    simp only [sslOk] at hssl0
    cases hcert : dget sfs "cert" (.obj []) with
    | obj cfs =>
      rw [hcert] at hssl0
      simp only [certOk] at hssl0
      rw [Bool.and_eq_true, Bool.and_eq_true] at hssl0
      obtain ⟨⟨hsub0, hiss0⟩, hfin0⟩ := hssl0
      obtain ⟨lfs, hloc⟩ := isObjB_obj hloc0
      obtain ⟨hfs, hhttp⟩ := isObjB_obj hhttp0
      obtain ⟨sufs, hsub⟩ := isObjB_obj hsub0
      obtain ⟨ifs, hiss⟩ := isObjB_obj hiss0
      obtain ⟨ffs, hfin⟩ := isObjB_obj hfin0
      simp only [parse_fields, hloc, hssl, hhttp, hcert, hsub, hiss, hfin,
        pyGet, pyGetD, jget, jgetD, ebind_ok]
    | null => rw [hcert] at hssl0; simp [certOk] at hssl0
    | bool b => rw [hcert] at hssl0; simp [certOk] at hssl0
    | num n => rw [hcert] at hssl0; simp [certOk] at hssl0
    | str s => rw [hcert] at hssl0; simp [certOk] at hssl0
    | arr xs => rw [hcert] at hssl0; simp [certOk] at hssl0
  | null => rw [hssl] at hssl0; simp [sslOk] at hssl0
  | bool b => rw [hssl] at hssl0; simp [sslOk] at hssl0
  | num n => rw [hssl] at hssl0; simp [sslOk] at hssl0
  | str s => rw [hssl] at hssl0; simp [sslOk] at hssl0
  | arr xs => rw [hssl] at hssl0; simp [sslOk] at hssl0

/-- C3: on a match record that is a dictionary whose optional nested entries
are absent or dictionaries (in particular a record missing any subset of its
fields), the normalizer returns an indicator without raising, and every field
whose source entry is missing resolves to null, or to the empty list for
tags, hostnames and domains. -/
theorem parse_match_total_on_missing (fs : List (String × JsonVal)) (q t : String)
    (hwf : wf_match (.obj fs) = true) :
    parse_match (.obj fs) q t = .ok (parse_result (.obj fs) q t) ∧
    (lookupJson fs "ip_str" = none → (parse_result (.obj fs) q t).ip = .null) ∧
    (lookupJson fs "port" = none → (parse_result (.obj fs) q t).port = .null) ∧
    (lookupJson fs "product" = none → (parse_result (.obj fs) q t).product = .null) ∧
    (lookupJson fs "tags" = none → (parse_result (.obj fs) q t).tags = .arr []) ∧
    (lookupJson fs "org" = none → (parse_result (.obj fs) q t).org = .null) ∧
    (lookupJson fs "asn" = none → (parse_result (.obj fs) q t).asn = .null) ∧
    (lookupJson fs "isp" = none → (parse_result (.obj fs) q t).isp = .null) ∧
    (lookupJson fs "timestamp" = none → (parse_result (.obj fs) q t).last_seen = .null) ∧
    (lookupJson fs "hostnames" = none → (parse_result (.obj fs) q t).hostnames = .arr []) ∧
    (lookupJson fs "domains" = none → (parse_result (.obj fs) q t).domains = .arr []) ∧
    (lookupJson fs "os" = none → (parse_result (.obj fs) q t).os = .null) ∧
    (lookupJson fs "location" = none →
      (parse_result (.obj fs) q t).country = .null ∧
        (parse_result (.obj fs) q t).city = .null) ∧
    (lookupJson fs "ssl" = none →
      (parse_result (.obj fs) q t).ssl_cn = .null ∧
        (parse_result (.obj fs) q t).ssl_issuer = .null ∧
        (parse_result (.obj fs) q t).ssl_fingerprint = .null ∧
        (parse_result (.obj fs) q t).jarm = .null) ∧
    (lookupJson fs "http" = none →
      (parse_result (.obj fs) q t).http_title = .null ∧
        (parse_result (.obj fs) q t).http_server = .null) := by
  have hc := parse_fields_ok_of_wf fs q hwf
  have hpm : parse_match (.obj fs) q t =
      (parse_fields (.obj fs) q).map (fun i => { i with collected_at := .str t }) := rfl
  rw [hc] at hpm
  simp only [Except.map] at hpm
  have hpr : parse_result (.obj fs) q t =
      ((parse_match (.obj fs) q t).toOption).getD nullIndicator := rfl
  rw [hpm] at hpr
  simp only [Except.toOption, Option.getD_some] at hpr
  refine ⟨by rw [hpm, hpr], ?_, ?_, ?_, ?_, ?_, ?_, ?_, ?_, ?_, ?_, ?_, ?_, ?_, ?_⟩
  · intro h; rw [hpr]; simp [get0, h]
  · intro h; rw [hpr]; simp [get0, h]
  · intro h; rw [hpr]; simp [get0, h]
  · intro h; rw [hpr]; simp [dget, h]
  · intro h; rw [hpr]; simp [get0, h]
  · intro h; rw [hpr]; simp [get0, h]
  · intro h; rw [hpr]; simp [get0, h]
  · intro h; rw [hpr]; simp [get0, h]
  · intro h; rw [hpr]; simp [dget, h]
  · intro h; rw [hpr]; simp [dget, h]
  · intro h; rw [hpr]; simp [get0, h]
  · intro h
    rw [hpr]
    constructor
    · simp [dget, h, jget, get0, lookupJson]
    · simp [dget, h, jget, get0, lookupJson]
  · intro h
    rw [hpr]
    refine ⟨?_, ?_, ?_, ?_⟩
    · simp [dget, h, jget, jgetD, get0, lookupJson]
    · simp [dget, h, jget, jgetD, get0, lookupJson]
    · simp [dget, h, jget, jgetD, get0, lookupJson]
    · simp [dget, h, jget, jgetD, get0, lookupJson]
  · intro h
    rw [hpr]
    constructor
    · simp [dget, h, jget, get0, lookupJson]
    · simp [dget, h, jget, get0, lookupJson]

/-- C3 witness: the empty match record parses with every field null or an
empty list. -/
theorem parse_match_total_on_missing_witness :
    parse_match (.obj []) "tag:c2" "T0" = .ok (parse_result (.obj []) "tag:c2" "T0") ∧
    (lookupJson [] "ip_str" = none → (parse_result (.obj []) "tag:c2" "T0").ip = .null) ∧
    (lookupJson [] "port" = none → (parse_result (.obj []) "tag:c2" "T0").port = .null) ∧
    (lookupJson [] "product" = none → (parse_result (.obj []) "tag:c2" "T0").product = .null) ∧
    (lookupJson [] "tags" = none → (parse_result (.obj []) "tag:c2" "T0").tags = .arr []) ∧
    (lookupJson [] "org" = none → (parse_result (.obj []) "tag:c2" "T0").org = .null) ∧
    (lookupJson [] "asn" = none → (parse_result (.obj []) "tag:c2" "T0").asn = .null) ∧
    (lookupJson [] "isp" = none → (parse_result (.obj []) "tag:c2" "T0").isp = .null) ∧
    (lookupJson [] "timestamp" = none → (parse_result (.obj []) "tag:c2" "T0").last_seen = .null) ∧
    (lookupJson [] "hostnames" = none → (parse_result (.obj []) "tag:c2" "T0").hostnames = .arr []) ∧
    (lookupJson [] "domains" = none → (parse_result (.obj []) "tag:c2" "T0").domains = .arr []) ∧
    (lookupJson [] "os" = none → (parse_result (.obj []) "tag:c2" "T0").os = .null) ∧
    (lookupJson [] "location" = none →
      (parse_result (.obj []) "tag:c2" "T0").country = .null ∧
        (parse_result (.obj []) "tag:c2" "T0").city = .null) ∧
    (lookupJson [] "ssl" = none →
      (parse_result (.obj []) "tag:c2" "T0").ssl_cn = .null ∧
        (parse_result (.obj []) "tag:c2" "T0").ssl_issuer = .null ∧
        (parse_result (.obj []) "tag:c2" "T0").ssl_fingerprint = .null ∧
        (parse_result (.obj []) "tag:c2" "T0").jarm = .null) ∧
    (lookupJson [] "http" = none →
      (parse_result (.obj []) "tag:c2" "T0").http_title = .null ∧
        (parse_result (.obj []) "tag:c2" "T0").http_server = .null) :=
  parse_match_total_on_missing [] "tag:c2" "T0" (by decide)

theorem fetch_eq_concat (api : ShodanApi) (after_date : Option String) (now : String) :
    ∀ queries : List String,
      (∀ q ∈ queries, ∃ l, run_query api after_date now q = .ok l) →
        fetch_c2_data api queries after_date now =
          .ok (concat_lists (queries.map (fun q => exceptD (run_query api after_date now q)))) := by
  intro queries
  induction queries with
  | nil => intro _; rfl
  | cons q0 qs ih =>
    intro h
    obtain ⟨l, hl⟩ := h q0 (List.mem_cons_self _ _)
    have hrest := ih (fun q hq => h q (List.mem_cons_of_mem _ hq))
    simp only [fetch_c2_data]
    rw [hl, ebind_ok, hrest, ebind_ok]
    simp only [List.map_cons, concat_lists, exceptD, hl, Except.toOption, Option.getD_some]

theorem parse_matches_length (ms : List JsonVal) (q t : String) :
    ∀ l, parse_matches ms q t = .ok l → l.length = ms.length := by
  induction ms with
  | nil =>
    intro l h
    simp only [parse_matches] at h
    cases h
    rfl
  | cons m rest ih =>
    intro l h
    simp only [parse_matches] at h
    cases hm : parse_match m q t with
    | error e => rw [hm, ebind_err] at h; cases h
    | ok i =>
      rw [hm, ebind_ok] at h
      cases hr : parse_matches rest q t with
      | error e => rw [hr, ebind_err] at h; cases h
      | ok tl =>
        rw [hr, ebind_ok] at h
        cases h
        simp [ih tl hr]

/-- C4: a per-query APIError is caught and the query contributes nothing,
while every other query still executes, so a run in which some queries fail
returns exactly the concatenated normalized matches of the succeeding
queries in catalog order. -/
theorem fetch_skips_failed_queries (api : ShodanApi) (queries : List String)
    (after_date : Option String) (now : String)
    (h : ∀ q ∈ queries, ∃ l, run_query api after_date now q = .ok l) :
    (fetch_c2_data api queries after_date now =
        .ok (concat_lists (queries.map (fun q => exceptD (run_query api after_date now q))))) ∧
      (∀ q, api.search_cursor q = .error () → run_query api none now q = .ok []) ∧
      (∀ q dte, api.search (full_query q (some dte)) 200 = .error () →
        run_query api (some dte) now q = .ok []) := by
  refine ⟨fetch_eq_concat api after_date now queries h, ?_, ?_⟩
  · intro q hq
    simp only [run_query, full_query]
    rw [hq]
  · intro q dte hq
    simp only [run_query]
    rw [hq]

/-- C4 witness: three catalog queries of which the first raises, the others
succeeding with one match each; the output is exactly the two matches of the
succeeding queries. -/
theorem fetch_skips_failed_queries_witness :
    fetch_c2_data c4_api c4_queries (some "2026-01-01") "T0" =
      .ok (concat_lists (c4_queries.map
        (fun q => exceptD (run_query c4_api (some "2026-01-01") "T0" q)))) :=
  (fetch_skips_failed_queries c4_api c4_queries (some "2026-01-01") "T0" (by
    intro q hq
    simp only [c4_queries, List.mem_cons, List.mem_singleton, List.not_mem_nil, or_false] at hq
    rcases hq with rfl | rfl | rfl
    · exact ⟨exceptD (run_query c4_api (some "2026-01-01") "T0" "q1"), rfl⟩
    · exact ⟨exceptD (run_query c4_api (some "2026-01-01") "T0" "q2"), rfl⟩
    · exact ⟨exceptD (run_query c4_api (some "2026-01-01") "T0" "q3"), rfl⟩)).1

/-- C5: with no date boundary a query pages through the cursor and collects
at most 500 matches; with a boundary it performs the single search request
with limit 200, so (when the service honours the limit) at most 200 matches
are returned for the query. -/
theorem per_query_caps (api : ShodanApi) (q now : String) :
    (∀ l, run_query api none now q = .ok l → l.length ≤ 500) ∧
      (∀ d, run_query api (some d) now q =
        (match api.search (q ++ " after:" ++ d) 200 with
         | .error _ => .ok []
         | .ok ms => parse_matches ms q now)) ∧
      (∀ d ms l, api.search (q ++ " after:" ++ d) 200 = .ok ms → ms.length ≤ 200 →
        run_query api (some d) now q = .ok l → l.length ≤ 200) := by
  refine ⟨?_, fun d => rfl, ?_⟩
  · intro l hl
    simp only [run_query, full_query] at hl
    cases hc : api.search_cursor q with
    | error e => rw [hc] at hl; cases hl; simp
    | ok stream =>
      rw [hc] at hl
      have := parse_matches_length (stream.take 500) q now l hl
      rw [this, List.length_take]
      exact min_le_left _ _
  · intro d ms l hs hms hl
    simp only [run_query, full_query] at hl
    rw [hs] at hl
    have := parse_matches_length ms q now l hl
    rw [this]
    exact hms

/-- C5 witness: a client returning one match; the bootstrap branch stays
within 500 and the incremental branch within 200. -/
theorem per_query_caps_witness : c5_l1.length ≤ 500 ∧ c5_l2.length ≤ 200 :=
  ⟨(per_query_caps c5_api "tag:c2" "T0").1 c5_l1 rfl,
   (per_query_caps c5_api "tag:c2" "T0").2.2 "2026-01-01" c5_ms c5_l2 rfl (by decide) rfl⟩

theorem digitChar_isDigit (k : Nat) (h : k < 10) : (digitChar k).isDigit = true := by
  interval_cases k <;> decide

theorem digitVal_digitChar (k : Nat) (h : k < 10) : digitVal (digitChar k) = k := by
  interval_cases k <;> decide

theorem digitChar_ne_Z (k : Nat) (h : k < 10) : digitChar k ≠ 'Z' := by
  interval_cases k <;> decide

theorem parse2_pad2 (n : Nat) (hn : n ≤ 99) (r : List Char) :
    parse2 (pad2 n ++ r) = some (n, r) := by
  have h1 : n / 10 % 10 < 10 := Nat.mod_lt _ (by norm_num)
  have h2 : n % 10 < 10 := Nat.mod_lt _ (by norm_num)
  simp only [pad2, List.cons_append, List.nil_append, parse2,
    digitChar_isDigit _ h1, digitChar_isDigit _ h2, Bool.and_self, if_true,
    digitVal_digitChar _ h1, digitVal_digitChar _ h2]
  have : n / 10 % 10 * 10 + n % 10 = n := by omega
  rw [this]

theorem pad4_eq (n : Nat) : pad4 n = pad2 (n / 100) ++ pad2 (n % 100) := by
  simp only [pad4, pad2, List.cons_append, List.nil_append]
  have e1 : n / 100 / 10 % 10 = n / 1000 % 10 := by omega
  have e3 : n % 100 / 10 % 10 = n / 10 % 10 := by omega
  have e4 : n % 100 % 10 = n % 10 := by omega
  rw [e1, e3, e4]

theorem parse4_pad4 (n : Nat) (hn : n ≤ 9999) (r : List Char) :
    parse4 (pad4 n ++ r) = some (n, r) := by
  rw [pad4_eq, List.append_assoc]
  simp only [parse4]
  rw [parse2_pad2 (n / 100) (by omega), obind_some]
  simp only []
  rw [parse2_pad2 (n % 100) (by omega), obind_some]
  have : n / 100 * 100 + n % 100 = n := by omega
  rw [this]

theorem pad6_eq (n : Nat) :
    pad6 n = pad2 (n / 10000) ++ (pad2 (n / 100 % 100) ++ pad2 (n % 100)) := by
  simp only [pad6, pad2, List.cons_append, List.nil_append]
  have e1 : n / 10000 / 10 % 10 = n / 100000 % 10 := by omega
  have e2 : n / 100 % 100 / 10 % 10 = n / 1000 % 10 := by omega
  have e3 : n / 100 % 100 % 10 = n / 100 % 10 := by omega
  have e4 : n % 100 / 10 % 10 = n / 10 % 10 := by omega
  have e5 : n % 100 % 10 = n % 10 := by omega
  rw [e1, e2, e3, e4, e5]

theorem parse6_pad6 (n : Nat) (hn : n ≤ 999999) (r : List Char) :
    parse6 (pad6 n ++ r) = some (n, r) := by
  rw [pad6_eq, List.append_assoc, List.append_assoc]
  simp only [parse6]
  rw [parse2_pad2 (n / 10000) (by omega), obind_some]
  simp only []
  rw [parse2_pad2 (n / 100 % 100) (by omega), obind_some]
  simp only []
  rw [parse2_pad2 (n % 100) (by omega), obind_some]
  have : n / 10000 * 10000 + n / 100 % 100 * 100 + n % 100 = n := by omega
  rw [this]

theorem expectChar_cons (c : Char) (r : List Char) : expectChar c (c :: r) = some r := by
  simp [expectChar]
theorem valid_bounds (d : PyDateTime) (hv : d.valid = true) :
    d.year ≤ 9999 ∧ d.month ≤ 99 ∧ d.day ≤ 99 ∧ d.hour ≤ 99 ∧ d.minute ≤ 99 ∧
      d.second ≤ 99 ∧ d.microsecond ≤ 999999 := by
  simp only [PyDateTime.valid, Bool.and_eq_true, decide_eq_true_eq] at hv
  omega

theorem fromisoformat_isoformat (d : PyDateTime) (hv : d.valid = true) :
    fromisoformat (isoformat d) = some d := by
  obtain ⟨h1, h2, h3, h4, h5, h6, h7⟩ := valid_bounds d hv
  simp only [fromisoformat, isoformat, dateChars, timeChars, List.append_assoc,
    List.cons_append]
  rw [parse4_pad4 d.year h1, obind_some]
  simp only []
  rw [expectChar_cons, obind_some]
  rw [parse2_pad2 d.month h2, obind_some]
  simp only []
  rw [expectChar_cons, obind_some]
  rw [parse2_pad2 d.day h3, obind_some]
  simp only []
  rw [expectChar_cons, obind_some]
  rw [parse2_pad2 d.hour h4, obind_some]
  simp only []
  rw [expectChar_cons, obind_some]
  rw [parse2_pad2 d.minute h5, obind_some]
  simp only []
  rw [expectChar_cons, obind_some]
  rw [parse2_pad2 d.second h6, obind_some]
  simp only []
  by_cases h0 : d.microsecond = 0
  · simp only [fracChars]
    rw [if_pos h0]
    simp only []
    rw [obind_some]
    simp only []
    rw [← h0]
    split
    next => rfl
    next hfalse => exact absurd ⟨by trivial, hv⟩ hfalse
  · simp only [fracChars]
    rw [if_neg h0]
    simp only [if_true]
    rw [show pad6 d.microsecond = pad6 d.microsecond ++ [] from (List.append_nil _).symm]
    rw [parse6_pad6 d.microsecond h7, obind_some]
    simp only []
    rw [obind_some]
    simp only []
    split
    next => rfl
    next hfalse => exact absurd ⟨by trivial, hv⟩ hfalse

theorem pad2_ne_Z (n : Nat) : ∀ c ∈ pad2 n, c ≠ 'Z' := by
  intro c hc
  simp only [pad2, List.mem_cons, List.not_mem_nil, or_false] at hc
  rcases hc with rfl | rfl
  · exact digitChar_ne_Z _ (Nat.mod_lt _ (by norm_num))
  · exact digitChar_ne_Z _ (Nat.mod_lt _ (by norm_num))

theorem pad4_ne_Z (n : Nat) : ∀ c ∈ pad4 n, c ≠ 'Z' := by
  intro c hc
  simp only [pad4, List.mem_cons, List.not_mem_nil, or_false] at hc
  rcases hc with rfl | rfl | rfl | rfl <;>
    exact digitChar_ne_Z _ (Nat.mod_lt _ (by norm_num))

theorem pad6_ne_Z (n : Nat) : ∀ c ∈ pad6 n, c ≠ 'Z' := by
  intro c hc
  simp only [pad6, List.mem_cons, List.not_mem_nil, or_false] at hc
  rcases hc with rfl | rfl | rfl | rfl | rfl | rfl <;>
    exact digitChar_ne_Z _ (Nat.mod_lt _ (by norm_num))

theorem fracChars_ne_Z (us : Nat) : ∀ c ∈ fracChars us, c ≠ 'Z' := by
  intro c hc
  simp only [fracChars] at hc
  split at hc
  · cases hc
  · rcases List.mem_cons.mp hc with rfl | hc2
    · decide
    · exact pad6_ne_Z us c hc2

theorem isoformat_no_Z (d : PyDateTime) : ∀ c ∈ (isoformat d).data, c ≠ 'Z' := by
  show ∀ c ∈ dateChars d ++ 'T' :: timeChars d, c ≠ 'Z'
  refine List.forall_mem_append.mpr ⟨?_, List.forall_mem_cons.mpr ⟨by decide, ?_⟩⟩
  · refine List.forall_mem_append.mpr ⟨pad4_ne_Z _, List.forall_mem_cons.mpr ⟨by decide, ?_⟩⟩
    exact List.forall_mem_append.mpr ⟨pad2_ne_Z _, List.forall_mem_cons.mpr ⟨by decide, pad2_ne_Z _⟩⟩
  · refine List.forall_mem_append.mpr ⟨pad2_ne_Z _, List.forall_mem_cons.mpr ⟨by decide, ?_⟩⟩
    refine List.forall_mem_append.mpr ⟨pad2_ne_Z _, List.forall_mem_cons.mpr ⟨by decide, ?_⟩⟩
    exact List.forall_mem_append.mpr ⟨pad2_ne_Z _, fracChars_ne_Z _⟩

theorem pyReplaceZ_iso (d : PyDateTime) : pyReplaceZ (isoformat d ++ "Z") = isoformat d := by
  simp only [pyReplaceZ]
  have hdata : (isoformat d ++ "Z").data = (isoformat d).data ++ ['Z'] := rfl
  rw [hdata, List.filter_append]
  have h1 : List.filter (fun c => c != 'Z') (isoformat d).data = (isoformat d).data := by
    apply List.filter_eq_self.mpr
    intro c hc
    simpa using isoformat_no_Z d c hc
  have h2 : List.filter (fun c => c != 'Z') ['Z'] = [] := rfl
  rw [h1, h2, List.append_nil]

/-- C7: on an incremental run the fetch boundary is the recorded last_run
timestamp truncated to its calendar day (YYYY-MM-DD), and the boundary is
applied by appending the after: filter to each catalog query string rather
than being passed separately to the service. -/
theorem incremental_boundary (d : PyDateTime) (hv : d.valid = true)
    (api : ShodanApi) (q now2 : String) :
    incremental_after_date (isoformat d ++ "Z") = some (strftime_Ymd d) ∧
      (isoformat d).data = (strftime_Ymd d).data ++ 'T' :: timeChars d ∧
      run_query api (some (strftime_Ymd d)) now2 q =
        (match api.search (q ++ " after:" ++ strftime_Ymd d) 200 with
         | .error _ => .ok []
         | .ok ms => parse_matches ms q now2) := by
  refine ⟨?_, rfl, rfl⟩
  simp only [incremental_after_date]
  rw [pyReplaceZ_iso, fromisoformat_isoformat d hv]
  rfl

/-- C7 witness: a concrete recorded timestamp 2026-01-02T03:04:05Z is
truncated to 2026-01-02 and appended to the query. -/
theorem incremental_boundary_witness :
    incremental_after_date (isoformat tNow ++ "Z") = some (strftime_Ymd tNow) ∧
      (isoformat tNow).data = (strftime_Ymd tNow).data ++ 'T' :: timeChars tNow ∧
      run_query c7_api (some (strftime_Ymd tNow)) "T0" "tag:c2" =
        (match c7_api.search ("tag:c2" ++ " after:" ++ strftime_Ymd tNow) 200 with
         | .error _ => .ok []
         | .ok ms => parse_matches ms "tag:c2" "T0") :=
  incremental_boundary tNow (by decide) c7_api "tag:c2" "T0"

/-- C9 counterexample: a present state file with malformed content makes
load_state raise (json.load fails), so load never raising for every
filesystem state is false. -/
theorem load_state_raises_on_malformed : load_state (some "not json") = .error () := rfl

/-- C9 as amended: load_state is fail-soft with respect to a missing state
file, returning no prior state, and returns the parsed document whenever the
file is present with well-formed JSON; a present but malformed file raises
instead. -/
theorem load_state_fail_soft :
    load_state none = .ok none ∧
      ∀ s v, json_loads s = .ok v → load_state (some s) = .ok (some v) := by
  refine ⟨rfl, ?_⟩
  intro s v h
  simp only [load_state, h, Except.map]

/-- C9 witness: a concrete well-formed state document parses and is
returned. -/
theorem load_state_fail_soft_witness : load_state (some c9_text) = .ok (some c9_val) :=
  load_state_fail_soft.2 c9_text c9_val rfl

/-- C10: two normalized records with distinct address values collapse to the
same ip:port identity key because the key is built by string formatting, so
the deduplicator silently drops the second, genuinely distinct, endpoint. -/
theorem dedup_conflates_distinct_endpoints :
    parse_match c10_m1 "tag:c2" "T0" = .ok c10_i1 ∧
      parse_match c10_m2 "tag:c2" "T0" = .ok c10_i2 ∧
      (c10_i1.ip, c10_i1.port) ≠ (c10_i2.ip, c10_i2.port) ∧
      indicator_key c10_i1 = indicator_key c10_i2 ∧
      deduplicate [c10_i1, c10_i2] ∅ = [c10_i1] := by
  refine ⟨rfl, rfl, ?_, rfl, rfl⟩
  intro h
  have hip : JsonVal.str "a:1" = JsonVal.str "a" := congrArg Prod.fst h
  have : "a:1" = "a" := JsonVal.str.inj hip
  exact absurd this (by decide)
